import Mathlib

/-!
Shallow embedding of the two transcription adapter modules of the btfm
repository:

* module 1: src/btfm/src/transcribe.py          (namespace Btfm)
* module 2: src/whisper-server/src/transcribe.py (namespace WhisperServer)

Modelling choices:

* The process-wide global MODEL becomes explicit state of type `Option M`:
  every function takes the current value and returns the value after the
  call.  Python functions can write a module global only through a
  `global MODEL` declaration, which only the two `load_model` bodies have.
* The external whisper library calls (`whisper.load_model`,
  `whisper.transcribe`, `whisper.pad_or_trim`, `whisper.log_mel_spectrogram`,
  `tensor.to`, `whisper.decode`) are oracle parameters returning
  `Except epsilon result`: `Except.error` models the call raising a Python
  exception, `Except.ok` a normal return.
* In module 1 the inference oracle additionally takes a call counter
  `k : Nat`, and `transcribe` returns the counter after the call; each
  occurrence of an inference call in the source advances the counter by
  one, so the counter delta counts how many inference calls a single
  `transcribe` call performs (used for the no-retry property).
* `result["text"]` is modelled by a record `WhisperResult` with a `text`
  field, matching the dictionary whisper returns.
* Python character classes are modelled on their ASCII fragment:
  `isWordChar` is Python's `\w` on ASCII (alphanumeric or underscore) and
  `isSpaceChar` is Python's `\s` on ASCII (codepoints 9-13, 28-31 and 32,
  the same set `str.isspace()` accepts there, so `str.strip()` and the
  regex agree on it).
* `json.dumps` is modelled with its default settings: separators
  `", "` and `": "`, `ensure_ascii=True` escaping.
-/

/-- The result dictionary returned by whisper inference; the adapters only
read its `"text"` entry. -/
structure WhisperResult where
  text : String

/-- Exceptions observable inside module 2's `try` blocks: either the
exception Python raises when the unset global `MODEL` (i.e. `None`) is used
as a model (attribute access on `None`), or an exception `e` raised by an
external library call. -/
inductive PyErr (ε : Type) where
  | noneModel : PyErr ε
  | exn : ε → PyErr ε

/-- Map the error of an `Except`, keeping successful values. -/
def mapErr {ε ε' α : Type} (f : ε → ε') : Except ε α → Except ε' α
  | Except.ok a => Except.ok a
  | Except.error e => Except.error (f e)

namespace Btfm

/--
`load_model` of src/btfm/src/transcribe.py:

  def load_model(path):
      global MODEL
      MODEL = whisper.load_model(path)

`whisper_load_model` is the external `whisper.load_model`.  An exception of
the external call is not caught, so it propagates (`Except.error`); on
success the global is overwritten with the new model and the Python
function returns `None` (no value), so the embedding returns only the new
state. -/
def load_model {P M ε : Type} (whisper_load_model : P → Except ε M)
    (path : P) (MODEL : Option M) : Except ε (Option M) :=
  match whisper_load_model path with
  | Except.error e => Except.error e
  | Except.ok m => Except.ok (some m)

/--
`transcribe` of src/btfm/src/transcribe.py:

  def transcribe(audio, fp16=False):
      text = ""
      if MODEL is None:
          print("Programmer error, ...")
      else:
          try:
              result = whisper.transcribe(MODEL, audio, verbose=None, fp16=fp16)
              text = result["text"]
          except Exception as e:
              print(e)
      return text

`whisper_transcribe m audio fp16 k` is the external `whisper.transcribe`
at the k-th inference call of the process (the counter lets distinct calls
have distinct outcomes); `verbose=None` is a fixed external argument and is
not modelled.  The returned triple is (returned text, MODEL after the
call, counter after the call).  The two `print` calls only write to
stdout. -/
def transcribe {M A ε : Type}
    (whisper_transcribe : M → A → Bool → Nat → Except ε WhisperResult)
    (MODEL : Option M) (audio : A) (fp16 : Bool) (k : Nat) :
    String × Option M × Nat :=
  match MODEL with
  | none => ("", none, k)
  | some m =>
    match whisper_transcribe m audio fp16 k with
    | Except.ok result => (result.text, some m, k + 1)
    | Except.error _ => ("", some m, k + 1)

end Btfm

/-- A JSON value, as built by module 2: it only ever constructs strings,
arrays and objects. -/
inductive Json where
  | str : String → Json
  | arr : List Json → Json
  | obj : List (String × Json) → Json

/-- Lower-case hexadecimal digit, as produced by `json.dumps` unicode
escapes. -/
def hexDigit (n : Nat) : Char :=
  if n < 10 then Char.ofNat (48 + n) else Char.ofNat (87 + n)

/-- Four hexadecimal digits of `n % 65536`. -/
def hex4 (n : Nat) : String :=
  String.mk [hexDigit (n / 4096 % 16), hexDigit (n / 256 % 16),
             hexDigit (n / 16 % 16), hexDigit (n % 16)]

/-- Escape one character the way `json.dumps` does with its default
`ensure_ascii=True`: two-character escapes for the quote, backslash and
common control characters, `\uXXXX` (with surrogate pairs above U+FFFF)
for other control and all non-ASCII characters. -/
def escapeChar (c : Char) : String :=
  if c = '"' then "\\\""
  else if c = '\\' then "\\\\"
  else if c = '\n' then "\\n"
  else if c = '\t' then "\\t"
  else if c = '\r' then "\\r"
  else if c.toNat = 8 then "\\b"
  else if c.toNat = 12 then "\\f"
  else if c.toNat < 32 then "\\u" ++ hex4 c.toNat
  else if c.toNat < 127 then String.mk [c]
  else if c.toNat < 65536 then "\\u" ++ hex4 c.toNat
  else "\\u" ++ hex4 (55296 + (c.toNat - 65536) / 1024)
       ++ "\\u" ++ hex4 (56320 + (c.toNat - 65536) % 1024)

/-- A JSON string literal: quotes around the escaped characters. -/
def encodeString (s : String) : String :=
  "\"" ++ String.join (s.data.map escapeChar) ++ "\""

mutual

/-- `json.dumps` with its default settings: item separator `", "`, key
separator `": "`. -/
def dumps : Json → String
  | Json.str s => encodeString s
  | Json.arr es => "[" ++ dumpsArr es ++ "]"
  | Json.obj ms => "\x7b" ++ dumpsObj ms ++ "\x7d"

/-- Array elements joined by `", "`. -/
def dumpsArr : List Json → String
  | [] => ""
  | [j] => dumps j
  | j :: rest => dumps j ++ ", " ++ dumpsArr rest

/-- Object members `key: value` joined by `", "`. -/
def dumpsObj : List (String × Json) → String
  | [] => ""
  | [(key, v)] => encodeString key ++ ": " ++ dumps v
  | (key, v) :: rest => encodeString key ++ ": " ++ dumps v ++ ", " ++ dumpsObj rest

end

namespace WhisperServer

/-- Python `\s` restricted to ASCII.  Python's regex `\s` (and equally
`str.isspace()`, which `str.strip()` uses) matches, within ASCII, exactly
tab through carriage return (9-13, so including vertical tab 11 and form
feed 12), the separator control characters 28-31, and the space 32. -/
def isSpaceChar (c : Char) : Bool :=
  (9 ≤ c.toNat && c.toNat ≤ 13) || (28 ≤ c.toNat && c.toNat ≤ 31)
    || c.toNat = 32

/-- Python `\w` restricted to ASCII: alphanumeric or underscore. -/
def isWordChar (c : Char) : Bool := c.isAlphanum || c = '_'

/-- A character survives `ALPHANUMERIC_REGEX.sub('', .)` iff it does not
match `[^\w\s]`, i.e. iff it is a word or whitespace character. -/
def keepChar (c : Char) : Bool := isWordChar c || isSpaceChar c

/-- Python `str.lower()` on the ASCII fragment. -/
def pyLower (s : String) : String := String.mk (s.data.map Char.toLower)

/-- `ALPHANUMERIC_REGEX.sub('', s)` where
`ALPHANUMERIC_REGEX = re.compile(r'[^\w\s]')`: the pattern matches single
characters, so substituting the empty string deletes exactly the
characters outside the word/whitespace classes. -/
def ALPHANUMERIC_REGEX_sub (s : String) : String :=
  String.mk (s.data.filter keepChar)

/-- Leading and trailing whitespace removed from a character list. -/
def stripChars (l : List Char) : List Char :=
  (l.dropWhile isSpaceChar).rdropWhile isSpaceChar

/-- Python `str.strip()` on the ASCII fragment. -/
def pyStrip (s : String) : String := String.mk (stripChars s.data)

/-- The cleaning applied to inference output in module 2:
`ALPHANUMERIC_REGEX.sub('', result["text"].lower()).strip()`. -/
def clean (s : String) : String := pyStrip (ALPHANUMERIC_REGEX_sub (pyLower s))

/-- The response dictionary of module 2 with transcript `t`:
`{"channel": {"alternatives": [{"transcript": t}]}}`. -/
def mkResponse (t : String) : Json :=
  Json.obj [("channel", Json.obj
    [("alternatives", Json.arr
      [Json.obj [("transcript", Json.str t)]])])]

/-- Checks that a JSON value has exactly the response shape: a one-key
object `channel`, holding a one-key object `alternatives`, holding a
one-element array of a one-key object `transcript`, holding a string. -/
def isResponseShape : Json → Bool
  | Json.obj [("channel", Json.obj
      [("alternatives", Json.arr
        [Json.obj [("transcript", Json.str _)]])])] => true
  | _ => false

/--
`load_model` of src/whisper-server/src/transcribe.py:

  def load_model(path):
      global MODEL
      MODEL = whisper.load_model(path, in_memory=True)

Identical to module 1 except the external call receives `in_memory=True`
(the Bool argument of the oracle). -/
def load_model {P M ε : Type} (whisper_load_model : P → Bool → Except ε M)
    (path : P) (MODEL : Option M) : Except ε (Option M) :=
  match whisper_load_model path true with
  | Except.error e => Except.error e
  | Except.ok m => Except.ok (some m)

/-- The call `whisper.transcribe(MODEL, audio, verbose=None, fp16=False)`
made by module 2 with the global as-is: when the global is unset, Python
passes `None` to the library, whose attribute accesses on the model raise,
so the call raises (`PyErr.noneModel`); otherwise the external oracle
decides the outcome. -/
def call_whisper_transcribe {M A ε : Type}
    (whisper_transcribe : M → A → Bool → Except ε WhisperResult) :
    Option M → A → Bool → Except (PyErr ε) WhisperResult
  | none, _, _ => Except.error PyErr.noneModel
  | some m, audio, fp16 => mapErr PyErr.exn (whisper_transcribe m audio fp16)

/--
`transcribe` of src/whisper-server/src/transcribe.py:

  def transcribe(audio):
      response = {"channel": {"alternatives": [{"transcript": ""}]}}
      try:
          result = whisper.transcribe(MODEL, audio, verbose=None, fp16=False)
          cleaned_text = ALPHANUMERIC_REGEX.sub('', result["text"].lower()).strip()
          response["channel"]["alternatives"][0]["transcript"] = cleaned_text
      except Exception as e:
          print(e)
      return json.dumps(response)

On success the pre-built response with empty transcript has its transcript
replaced by the cleaned text, which is `mkResponse (clean result.text)`;
on an exception the response keeps the empty transcript.  The pair is
(returned JSON string, MODEL after the call). -/
def transcribe {M A ε : Type}
    (whisper_transcribe : M → A → Bool → Except ε WhisperResult)
    (MODEL : Option M) (audio : A) : String × Option M :=
  match call_whisper_transcribe whisper_transcribe MODEL audio false with
  | Except.ok result => (dumps (mkResponse (clean result.text)), MODEL)
  | Except.error _ => (dumps (mkResponse ""), MODEL)

/-- `whisper.DecodingOptions(fp16=False)`: only the field the source sets
is modelled. -/
structure DecodingOptions where
  fp16 : Bool

/-- The body of the `try` block of `transcribe_raw`, in source order:

  audio = whisper.pad_or_trim(audio)
  mel = whisper.log_mel_spectrogram(audio).to(MODEL.device)
  options = whisper.DecodingOptions(fp16=False)
  result = whisper.decode(MODEL, mel, options)
  cleaned_text = ALPHANUMERIC_REGEX.sub('', result["text"].lower()).strip()

Python evaluates `whisper.log_mel_spectrogram(audio)` before
`MODEL.device`; reading `.device` on an unset (`None`) global raises. -/
def transcribe_raw_body {M A Mel Dev ε : Type}
    (pad_or_trim : A → Except ε A)
    (log_mel_spectrogram : A → Except ε Mel)
    (tensor_to : Mel → Dev → Except ε Mel)
    (device : M → Dev)
    (decode : M → Mel → DecodingOptions → Except ε WhisperResult)
    (MODEL : Option M) (audio : A) : Except (PyErr ε) String := do
  let audio2 ← mapErr PyErr.exn (pad_or_trim audio)
  let mel ← mapErr PyErr.exn (log_mel_spectrogram audio2)
  match MODEL with
  | none => Except.error PyErr.noneModel
  | some m => do
    let mel2 ← mapErr PyErr.exn (tensor_to mel (device m))
    let options : DecodingOptions := ⟨false⟩
    let result ← mapErr PyErr.exn (decode m mel2 options)
    pure (clean result.text)

/--
`transcribe_raw` of src/whisper-server/src/transcribe.py: the pre-built
response with empty transcript, the `try` block (`transcribe_raw_body`),
and the `except` keeping the empty transcript.  The pair is (returned
JSON string, MODEL after the call). -/
def transcribe_raw {M A Mel Dev ε : Type}
    (pad_or_trim : A → Except ε A)
    (log_mel_spectrogram : A → Except ε Mel)
    (tensor_to : Mel → Dev → Except ε Mel)
    (device : M → Dev)
    (decode : M → Mel → DecodingOptions → Except ε WhisperResult)
    (MODEL : Option M) (audio : A) : String × Option M :=
  match transcribe_raw_body pad_or_trim log_mel_spectrogram tensor_to
      device decode MODEL audio with
  | Except.ok t => (dumps (mkResponse t), MODEL)
  | Except.error _ => (dumps (mkResponse ""), MODEL)

end WhisperServer

/-! ### Helper lemmas about characters and the cleaning pipeline -/

theorem toNat_ofNat_valid {n : Nat} (h : n.isValidChar) :
    (Char.ofNat n).toNat = n := by
  unfold Char.ofNat
  rw [dif_pos h]
  simp [Char.ofNatAux, Char.toNat, UInt32.toNat]

theorem toNat_toLower (c : Char) :
    (Char.toLower c).toNat
      = if 65 ≤ c.toNat ∧ c.toNat ≤ 90 then c.toNat + 32 else c.toNat := by
  unfold Char.toLower
  by_cases h : 65 ≤ c.toNat ∧ c.toNat ≤ 90
  · rw [if_pos ⟨h.1, h.2⟩, if_pos h]
    exact toNat_ofNat_valid (Or.inl (by omega))
  · rw [if_neg ?hcond, if_neg h]
    intro hc
    exact h ⟨hc.1, hc.2⟩

theorem toLower_eq_self (c : Char) (h : ¬(65 ≤ c.toNat ∧ c.toNat ≤ 90)) :
    Char.toLower c = c := by
  unfold Char.toLower
  rw [if_neg ?hcond]
  intro hc
  exact h ⟨hc.1, hc.2⟩

theorem toLower_idem (c : Char) :
    Char.toLower (Char.toLower c) = Char.toLower c := by
  apply toLower_eq_self
  rw [toNat_toLower]
  by_cases h : 65 ≤ c.toNat ∧ c.toNat ≤ 90
  · rw [if_pos h]
    omega
  · rw [if_neg h]
    exact h

theorem dropWhile_head_false {α : Type} (p : α → Bool) (l : List α) :
    l.dropWhile p = [] ∨ ∃ x t, l.dropWhile p = x :: t ∧ p x = false := by
  cases h : l.dropWhile p with
  | nil => exact Or.inl rfl
  | cons x t =>
    refine Or.inr ⟨x, t, rfl, ?_⟩
    have hne : l.dropWhile p ≠ [] := by rw [h]; exact List.cons_ne_nil x t
    have hx := List.head_dropWhile_not p l hne
    have hhead : (l.dropWhile p).head hne = x := by
      simp [h]
    rw [hhead] at hx
    simpa using hx

namespace WhisperServer

theorem mem_stripChars {c : Char} {l : List Char} (h : c ∈ stripChars l) :
    c ∈ l := by
  unfold stripChars at h
  have h2 : c ∈ l.dropWhile isSpaceChar :=
    ( List.rdropWhile_prefix isSpaceChar (l.dropWhile isSpaceChar)).subset h
  exact (List.dropWhile_suffix isSpaceChar).subset h2

theorem stripChars_idem (l : List Char) :
    stripChars (stripChars l) = stripChars l := by
  unfold stripChars
  have hA : ((l.dropWhile isSpaceChar).rdropWhile isSpaceChar).dropWhile isSpaceChar
      = (l.dropWhile isSpaceChar).rdropWhile isSpaceChar := by
    rcases dropWhile_head_false isSpaceChar l with h | ⟨x, t, h, hx⟩
    · rw [h]
      simp [List.rdropWhile_nil]
    · rw [h]
      cases hxt : (x :: t).rdropWhile isSpaceChar with
      | nil => simp
      | cons y u =>
        have hpre := List.rdropWhile_prefix isSpaceChar (x :: t)
        rw [hxt] at hpre
        obtain ⟨t2, ht2⟩ := hpre
        have hyx : y = x := by
          have := ht2
          simp only [List.cons_append] at this
          exact (List.cons.injEq y (u ++ t2) x t).mp this |>.1
        subst hyx
        simp [List.dropWhile_cons, hx]
  rw [hA]
  exact List.rdropWhile_idempotent isSpaceChar (l.dropWhile isSpaceChar)

/-- Unfolding of `clean` down to character lists. -/
theorem clean_data (s : String) :
    (clean s).data = stripChars ((s.data.map Char.toLower).filter keepChar) := rfl

theorem clean_chars_keep (s : String) :
    ∀ c ∈ (clean s).data, keepChar c = true := by
  intro c hc
  rw [clean_data] at hc
  exact List.of_mem_filter (mem_stripChars hc)

theorem clean_chars_lower_fixed (s : String) :
    ∀ c ∈ (clean s).data, Char.toLower c = c := by
  intro c hc
  rw [clean_data] at hc
  have hmem : c ∈ s.data.map Char.toLower :=
    List.mem_of_mem_filter (mem_stripChars hc)
  obtain ⟨b, _, hb⟩ := List.mem_map.mp hmem
  rw [← hb]
  exact toLower_idem b

end WhisperServer

/-! ### Claim theorems -/

/-- C1: For module 2, for every audio input, if the external inference
call (whisper.transcribe in `transcribe`, or
pad_or_trim/log_mel_spectrogram/decode in `transcribe_raw`) raises any
exception, then `transcribe` and `transcribe_raw` return the serialized
JSON object with an empty transcript string,
literally the string `{"channel": {"alternatives": [{"transcript": ""}]}}`,
and never propagate the exception (the embedding returns this string
instead of an `Except.error`). -/
theorem c1_inference_exception_returns_empty_transcript_json
    {M A Mel Dev ε : Type}
    (wt : M → A → Bool → Except ε WhisperResult)
    (pot : A → Except ε A) (lms : A → Except ε Mel)
    (tto : Mel → Dev → Except ε Mel) (dev : M → Dev)
    (dec : M → Mel → WhisperServer.DecodingOptions → Except ε WhisperResult)
    (MODEL : Option M) (audio : A) (araw : A) (e1 e2 : PyErr ε)
    (h1 : WhisperServer.call_whisper_transcribe wt MODEL audio false
            = Except.error e1)
    (h2 : WhisperServer.transcribe_raw_body pot lms tto dev dec MODEL araw
            = Except.error e2) :
    WhisperServer.transcribe wt MODEL audio
        = ("\x7b\"channel\": \x7b\"alternatives\": [\x7b\"transcript\": \"\"\x7d]\x7d\x7d", MODEL)
      ∧ WhisperServer.transcribe_raw pot lms tto dev dec MODEL araw
        = ("\x7b\"channel\": \x7b\"alternatives\": [\x7b\"transcript\": \"\"\x7d]\x7d\x7d", MODEL) := by
  constructor
  · unfold WhisperServer.transcribe
    rw [h1]
    rfl
  · unfold WhisperServer.transcribe_raw
    rw [h2]
    rfl

/-- Witness for C1 at concrete inputs: all external types are `Unit`, the
model is unset, so the inference call in `transcribe` raises and
`transcribe_raw` reaches `MODEL.device` on `None` and raises. -/
theorem c1_witness :
    WhisperServer.transcribe
        (fun (_ : Unit) (_ : Unit) (_ : Bool) =>
          (Except.error () : Except Unit WhisperResult))
        (none : Option Unit) ()
      = ("\x7b\"channel\": \x7b\"alternatives\": [\x7b\"transcript\": \"\"\x7d]\x7d\x7d", none)
    ∧ WhisperServer.transcribe_raw
        (fun (a : Unit) => Except.ok a) (fun (_ : Unit) => Except.ok ())
        (fun (m : Unit) (_ : Unit) => Except.ok m) (fun (_ : Unit) => ())
        (fun (_ : Unit) (_ : Unit) (_ : WhisperServer.DecodingOptions) =>
          (Except.error () : Except Unit WhisperResult))
        (none : Option Unit) ()
      = ("\x7b\"channel\": \x7b\"alternatives\": [\x7b\"transcript\": \"\"\x7d]\x7d\x7d", none) :=
  c1_inference_exception_returns_empty_transcript_json
    _ _ _ _ _ _ none () () PyErr.noneModel PyErr.noneModel rfl rfl

/-- C2: For every audio input, when the Model Reference is unset
(`MODEL = none`), calling `transcribe` does not raise: module 1's
`transcribe` returns the empty string (with the model still unset and no
inference call made), and module 2's `transcribe` returns its
empty-transcript result `dumps (mkResponse "")`, for every choice of the
external oracles — the unset model never surfaces as an exception to the
caller. -/
theorem c2_unset_model_soft_empty_result {M A M2 A2 ε ε2 : Type}
    (wt1 : M → A → Bool → Nat → Except ε WhisperResult)
    (audio : A) (fp16 : Bool) (k : Nat)
    (wt2 : M2 → A2 → Bool → Except ε2 WhisperResult) (audio2 : A2) :
    Btfm.transcribe wt1 (none : Option M) audio fp16 k = ("", none, k)
      ∧ WhisperServer.transcribe wt2 (none : Option M2) audio2
        = (dumps (WhisperServer.mkResponse ""), none) :=
  ⟨rfl, rfl⟩

/-- C3: For module 1, for every audio input with the Model Reference set,
if the external inference call `whisper.transcribe` raises any exception,
then `transcribe` returns the empty string and does not propagate the
exception; the call counter advances by exactly one, so the single failed
inference call is not retried. -/
theorem c3_module1_exception_empty_string_no_retry {M A ε : Type}
    (wt : M → A → Bool → Nat → Except ε WhisperResult)
    (m : M) (audio : A) (fp16 : Bool) (k : Nat) (e : ε)
    (h : wt m audio fp16 k = Except.error e) :
    Btfm.transcribe wt (some m) audio fp16 k = ("", some m, k + 1) := by
  show (match wt m audio fp16 k with
    | Except.ok result => (result.text, some m, k + 1)
    | Except.error _ => ("", some m, k + 1)) = ("", some m, k + 1)
  rw [h]

/-- Witness for C3 at concrete inputs: the oracle always raises. -/
theorem c3_witness :
    Btfm.transcribe
        (fun (_ : Unit) (_ : Unit) (_ : Bool) (_ : Nat) =>
          (Except.error 7 : Except Nat WhisperResult))
        (some ()) () false 0
      = ("", some (), 1) :=
  c3_module1_exception_empty_string_no_retry _ () () false 0 7 rfl

/-- C4: For module 2, for every audio input and every outcome of the
external inference calls (success or exception), the value returned by
`transcribe` and by `transcribe_raw` is the serialization of a JSON value
with exactly the nested key structure channel.alternatives[0].transcript,
where alternatives is a one-element list and transcript a string and no
other keys exist (`isResponseShape`). -/
theorem c4_module2_always_exact_json_shape {M A Mel Dev ε : Type}
    (wt : M → A → Bool → Except ε WhisperResult)
    (pot : A → Except ε A) (lms : A → Except ε Mel)
    (tto : Mel → Dev → Except ε Mel) (dev : M → Dev)
    (dec : M → Mel → WhisperServer.DecodingOptions → Except ε WhisperResult)
    (MODEL : Option M) (audio : A) (araw : A) :
    (∃ t, WhisperServer.transcribe wt MODEL audio
          = (dumps (WhisperServer.mkResponse t), MODEL)
        ∧ WhisperServer.isResponseShape (WhisperServer.mkResponse t) = true)
      ∧ (∃ t, WhisperServer.transcribe_raw pot lms tto dev dec MODEL araw
          = (dumps (WhisperServer.mkResponse t), MODEL)
        ∧ WhisperServer.isResponseShape (WhisperServer.mkResponse t) = true) := by
  constructor
  · unfold WhisperServer.transcribe
    cases WhisperServer.call_whisper_transcribe wt MODEL audio false with
    | ok r => exact ⟨WhisperServer.clean r.text, rfl, rfl⟩
    | error e => exact ⟨"", rfl, rfl⟩
  · unfold WhisperServer.transcribe_raw
    cases WhisperServer.transcribe_raw_body pot lms tto dev dec MODEL araw with
    | ok t => exact ⟨t, rfl, rfl⟩
    | error e => exact ⟨"", rfl, rfl⟩

/-- C5: The module 2 cleaning step produces the input lowercased, with
every character outside the (ASCII) word and whitespace classes removed,
and leading/trailing whitespace trimmed; every character of the result is
in the word/whitespace classes, and in particular cleaning
"Hello, World! 123" yields "hello world 123". -/
theorem c5_cleaning_lowercase_filter_strip :
    WhisperServer.clean "Hello, World! 123" = "hello world 123"
      ∧ (∀ s : String, (WhisperServer.clean s).data
          = WhisperServer.stripChars
              ((s.data.map Char.toLower).filter WhisperServer.keepChar))
      ∧ (∀ s : String, ∀ c ∈ (WhisperServer.clean s).data,
          WhisperServer.keepChar c = true) :=
  ⟨by decide, fun s => WhisperServer.clean_data s,
    fun s => WhisperServer.clean_chars_keep s⟩

/-- Witness for C5: its membership hypothesis discharged on the concrete
cleaned string of the example. -/
theorem c5_witness : WhisperServer.keepChar 'h' = true :=
  c5_cleaning_lowercase_filter_strip.2.2 "Hello, World! 123" 'h' (by decide)

/-- C6: The module 2 text-cleaning function (lowercase, then remove every
character matching the class complement, then strip) is idempotent:
applying it twice yields the same string as applying it once. -/
theorem c6_clean_idempotent (s : String) :
    WhisperServer.clean (WhisperServer.clean s) = WhisperServer.clean s := by
  have h1 : (WhisperServer.clean s).data.map Char.toLower
      = (WhisperServer.clean s).data :=
    (List.map_congr_left fun c hc =>
      WhisperServer.clean_chars_lower_fixed s c hc).trans
      (List.map_id (WhisperServer.clean s).data)
  have h2 : (WhisperServer.clean s).data.filter WhisperServer.keepChar
      = (WhisperServer.clean s).data :=
    List.filter_eq_self.mpr fun c hc => by
      simpa using WhisperServer.clean_chars_keep s c hc
  apply String.ext
  rw [WhisperServer.clean_data (WhisperServer.clean s), h1, h2,
      WhisperServer.clean_data s, WhisperServer.stripChars_idem]

/-- C7: For module 1, with the Model Reference set, when the external
inference call succeeds, `transcribe` returns the model's result text
exactly as produced, with no post-processing, advancing the call counter
by the single call made. -/
theorem c7_module1_success_returns_raw_text {M A ε : Type}
    (wt : M → A → Bool → Nat → Except ε WhisperResult)
    (m : M) (audio : A) (fp16 : Bool) (k : Nat) (r : WhisperResult)
    (h : wt m audio fp16 k = Except.ok r) :
    Btfm.transcribe wt (some m) audio fp16 k = (r.text, some m, k + 1) := by
  show (match wt m audio fp16 k with
    | Except.ok result => (result.text, some m, k + 1)
    | Except.error _ => ("", some m, k + 1)) = (r.text, some m, k + 1)
  rw [h]

/-- Witness for C7: the model text keeps its casing, punctuation and
whitespace unchanged. -/
theorem c7_witness :
    Btfm.transcribe
        (fun (_ : Unit) (_ : Unit) (_ : Bool) (_ : Nat) =>
          (Except.ok ⟨" Hi, There! "⟩ : Except Unit WhisperResult))
        (some ()) () false 0
      = (" Hi, There! ", some (), 1) :=
  c7_module1_success_returns_raw_text _ () () false 0 ⟨" Hi, There! "⟩ rfl

/-- C8: After a successful `load_model` (which sets the Model Reference to
the loaded model), for every audio input for which the underlying model
returns non-empty text without raising, a subsequent call to module 1's
`transcribe` returns non-empty text. -/
theorem c8_load_then_transcribe_nonempty {P M A ε : Type}
    (wlm : P → Except ε M) (wt : M → A → Bool → Nat → Except ε WhisperResult)
    (path : P) (s0 : Option M) (m : M) (audio : A) (fp16 : Bool) (k : Nat)
    (r : WhisperResult)
    (hload : wlm path = Except.ok m)
    (hinfer : wt m audio fp16 k = Except.ok r)
    (hne : r.text ≠ "") :
    Btfm.load_model wlm path s0 = Except.ok (some m)
      ∧ (Btfm.transcribe wt (some m) audio fp16 k).1 ≠ "" := by
  constructor
  · unfold Btfm.load_model
    rw [hload]
  · show (match wt m audio fp16 k with
      | Except.ok result => (result.text, some m, k + 1)
      | Except.error _ => ("", some m, k + 1)).1 ≠ ""
    rw [hinfer]
    exact hne

/-- Witness for C8: a stub loader and a stub model answering "hello". -/
theorem c8_witness :
    Btfm.load_model (fun (_ : Unit) => (Except.ok () : Except Unit Unit))
        () (none : Option Unit) = Except.ok (some ())
      ∧ (Btfm.transcribe
          (fun (_ : Unit) (_ : Unit) (_ : Bool) (_ : Nat) =>
            (Except.ok ⟨"hello"⟩ : Except Unit WhisperResult))
          (some ()) () false 0).1 ≠ "" :=
  c8_load_then_transcribe_nonempty _ _ () none () () false 0 ⟨"hello"⟩
    rfl rfl (by decide)

/-- C9: For every path and prior state, `load_model` of both modules sets
the process-wide Model Reference to the newly loaded model, replacing any
prior value (the result does not depend on the prior state), and if the
underlying library's load raises, the exception propagates uncaught: the
result is exactly the external outcome mapped through `some`.  The Python
functions return `None` (no value), so the embedding returns only the new
state. -/
theorem c9_load_model_overwrites_or_propagates {P M ε P2 M2 ε2 : Type}
    (wlm : P → Except ε M) (path : P) (s : Option M)
    (wlm2 : P2 → Bool → Except ε2 M2) (path2 : P2) (s2 : Option M2) :
    Btfm.load_model wlm path s = Except.map some (wlm path)
      ∧ WhisperServer.load_model wlm2 path2 s2
        = Except.map some (wlm2 path2 true) := by
  constructor
  · unfold Btfm.load_model
    cases wlm path <;> rfl
  · unfold WhisperServer.load_model
    cases wlm2 path2 true <;> rfl

/-- C10: In both modules, every call to `transcribe` (and `transcribe_raw`
in module 2) leaves the process-wide Model Reference unchanged, on both
the success and the exception path, for every choice of oracles: in the
source only the `load_model` bodies declare `global MODEL`, so only they
can write it. -/
theorem c10_transcribe_preserves_model_reference
    {M A M2 A2 Mel Dev ε ε2 : Type}
    (wt1 : M → A → Bool → Nat → Except ε WhisperResult)
    (MODEL1 : Option M) (audio1 : A) (fp16 : Bool) (k : Nat)
    (wt2 : M2 → A2 → Bool → Except ε2 WhisperResult)
    (MODEL2 : Option M2) (audio2 : A2)
    (pot : A2 → Except ε2 A2) (lms : A2 → Except ε2 Mel)
    (tto : Mel → Dev → Except ε2 Mel) (dev : M2 → Dev)
    (dec : M2 → Mel → WhisperServer.DecodingOptions → Except ε2 WhisperResult)
    (araw : A2) :
    (Btfm.transcribe wt1 MODEL1 audio1 fp16 k).2.1 = MODEL1
      ∧ (WhisperServer.transcribe wt2 MODEL2 audio2).2 = MODEL2
      ∧ (WhisperServer.transcribe_raw pot lms tto dev dec MODEL2 araw).2
        = MODEL2 := by
  refine ⟨?_, ?_, ?_⟩
  · cases MODEL1 with
    | none => rfl
    | some m =>
      show (match wt1 m audio1 fp16 k with
        | Except.ok result => (result.text, some m, k + 1)
        | Except.error _ => ("", some m, k + 1)).2.1 = some m
      cases wt1 m audio1 fp16 k <;> rfl
  · unfold WhisperServer.transcribe
    cases WhisperServer.call_whisper_transcribe wt2 MODEL2 audio2 false <;> rfl
  · unfold WhisperServer.transcribe_raw
    cases WhisperServer.transcribe_raw_body pot lms tto dev dec MODEL2 araw <;> rfl
